import Mathlib

/-!
Verification of the HTTP transport core in `src/yt_dlp/networking/_urllib3.py`
against its natural-language specification.

The development shallowly embeds the transport core: the error-translation
functions (`handle_protocol_error`, `handle_read_errors`, the except-chain of
`Urllib3RH._real_handle`), the header-store manipulation, the cookie
integration, the pool registry (`get_pool`), the proxy-scheme resolution, the
response URL fix-up of `Urllib3ResponseAdapter`, the connection-discard
override of `Urllib3HTTPError`, and the SOCKS connection establishment of
`SocksHTTPConnection._new_conn`.  Behaviour of the urllib3 backend that the
core configures (redirect header stripping, retry unwrapping, the
incomplete-read bookkeeping) is embedded from urllib3 1.26 source
(poolmanager.py, util/retry.py, response.py, exceptions.py), the backend
version the repository targets.
-/

namespace Urllib3RH

/-- The unified error taxonomy surfaced to callers (the yt_dlp.utils error
classes imported at lines 26-33 of `_urllib3.py`): TransportError,
ConnectTimeoutError, ReadTimeoutError, IncompleteRead (with the count of bytes
received and, when known, the expected remainder), SSLError (TLS), ProxyError,
and HTTPError for non-2xx statuses, which carries the redirect-loop flag set at
line 229 (`redirect_loop=urllib3_res.retries.total == 0`). -/
inductive Err where
  | transport (msg : String)
  | connectTimeout
  | readTimeout
  | incompleteRead (got : Nat) (expected : Option Nat)
  | tls (msg : String)
  | proxy (msg : String)
  | httpStatus (status : Nat) (redirectLoop : Bool)
deriving DecidableEq, Repr

/-- A chained cause attached to a urllib3 `ProtocolError`.  The raise sites in
urllib3 attach the wrapped `http.client` exception; the only cause the
translation at lines 48-58 inspects is `http.client.IncompleteRead`, whose
`expected` field (the count of bytes still missing) may be absent.  The byte
payload carried in its first field is modelled by its length. -/
inductive ProtoCause where
  | hcIncompleteRead (got : Nat) (expected : Option Nat)
deriving DecidableEq, Repr

/-- A raw urllib3 exception as it escapes `urlopen` (after the MaxRetryError
wrapper, see `RawDispatch`).  Every variant is a subclass of
`urllib3.exceptions.HTTPError`, which the final except clause at line 224
catches; `newConnectionError` models `NewConnectionError`, which in urllib3
1.26 is declared as a subclass of `ConnectTimeoutError` and is therefore
caught by the `ConnectTimeoutError` clause at line 213. -/
inductive RawReason where
  | connectTimeoutError
  | newConnectionError
  | proxyError (msg : String)
  | readTimeoutError
  | u3IncompleteRead (got : Nat) (expected : Nat)
  | sslError (msg : String)
  | protocolError (msg : String) (cause : Option ProtoCause)
  | otherHTTPError (msg : String)
deriving DecidableEq, Repr

/-- A raw fault surfaced by `pool.urlopen` at line 195: either a
`MaxRetryError` (possibly carrying the underlying fault as its `reason`, which
urllib3 retry.increment always sets to the triggering error when one exists)
or one of the other urllib3 exception types directly. -/
inductive RawDispatch where
  | maxRetryError (reason : Option RawReason)
  | direct (r : RawReason)
deriving DecidableEq, Repr

/-- A raw fault surfaced by `urllib3_response.read` inside
`Urllib3ResponseAdapter.read` (lines 111-119).  The urllib3 response machinery
converts every low-level read failure into one of these before it reaches the
adapter: `ReadTimeoutError`, `IncompleteRead`, `SSLError` (the READ_ERRORS
tuple at line 60), `ProtocolError`, or another `HTTPError` subclass. -/
inductive RawRead where
  | readTimeoutError
  | u3IncompleteRead (got : Nat) (expected : Nat)
  | sslError (msg : String)
  | protocolError (msg : String) (cause : Option ProtoCause)
  | otherHTTPError (msg : String)
deriving DecidableEq, Repr

/-- Models `handle_protocol_error` (lines 48-58).  When the chained cause of
the `ProtocolError` is an `http.client.IncompleteRead`, its counts are
re-raised as a typed IncompleteRead.  Without a chained cause the function
falls through to `TransportError`: the string heuristic at line 51 can never
produce an IncompleteRead on its own because line 52 (`if original_cause:`)
requires a cause to read the counts from, and otherwise executes `pass` (the
TODO at line 56), reaching the `raise TransportError` at line 58. -/
def handle_protocol_error (msg : String) (cause : Option ProtoCause) : Err :=
  match cause with
  | some (.hcIncompleteRead got expected) => Err.incompleteRead got expected
  | none => Err.transport msg

/-- Models `handle_read_errors` (lines 62-72) together with the two trailing
except clauses shared by both call sites (`ProtocolError` to
`handle_protocol_error`, any other `HTTPError` to `TransportError`).  The
`SSLError` message is derived from the cause arguments at line 72; the model
forwards the message. -/
def read_error_translate : RawRead → Err
  | .readTimeoutError => Err.readTimeout
  | .u3IncompleteRead got expected => Err.incompleteRead got (some expected)
  | .sslError m => Err.tls m
  | .protocolError m c => handle_protocol_error m c
  | .otherHTTPError m => Err.transport m

/-- The per-exception translation of the except-chain of `_real_handle`
(lines 213-225): `ConnectTimeoutError` (which `NewConnectionError` subclasses
in urllib3 1.26) at line 213, `ProxyError` at line 216, the READ_ERRORS tuple
at line 219, `ProtocolError` at line 222, and the catch-all
`urllib3.exceptions.HTTPError` at line 224. -/
def reason_translate : RawReason → Err
  | .connectTimeoutError => Err.connectTimeout
  | .newConnectionError => Err.connectTimeout
  | .proxyError m => Err.proxy m
  | .readTimeoutError => Err.readTimeout
  | .u3IncompleteRead got expected => Err.incompleteRead got (some expected)
  | .sslError m => Err.tls m
  | .protocolError m c => handle_protocol_error m c
  | .otherHTTPError m => Err.transport m

/-- Models lines 193-225 of `_real_handle`: the inner handler (lines 207-211)
re-raises the `reason` of a `MaxRetryError` when present, so the reason flows
through the outer except-chain; a reason-less `MaxRetryError` is re-raised
as-is and, being an `HTTPError` subclass, lands in the catch-all clause at
line 224 as a TransportError. -/
def dispatch_error_translate : RawDispatch → Err
  | .maxRetryError (some r) => reason_translate r
  | .maxRetryError none => Err.transport "Max retries exceeded"
  | .direct r => reason_translate r

/-- Outcome of reading from the underlying urllib3 response: a chunk of bytes
or a raw urllib3 fault. -/
inductive ReadOutcome where
  | ok (chunk : List Nat)
  | err (e : RawRead)
deriving DecidableEq, Repr

/-- Models `Urllib3ResponseAdapter.read` (lines 111-119): a successful read
returns the bytes; every raw fault is translated to exactly one typed error
(READ_ERRORS through `handle_read_errors`, `ProtocolError` through
`handle_protocol_error`, any other `HTTPError` to `TransportError`). -/
def adapter_read : ReadOutcome → Except Err (List Nat)
  | .ok b => Except.ok b
  | .err e => Except.error (read_error_translate e)

/-- Models the urllib3 bookkeeping for a Content-Length body that hits EOF
early (urllib3 response.py, read): after `k` of a declared `n` bytes the
stream ends with `_fp_bytes_read = k` and `length_remaining = n - k`, and
urllib3 raises `IncompleteRead(self._fp_bytes_read, self.length_remaining)`
when the remaining count is nonzero.  Note the second field is the REMAINING
count, not the declared total. -/
def u3_read_eof (n k : Nat) : ReadOutcome :=
  if n - k ≠ 0 then ReadOutcome.err (RawRead.u3IncompleteRead k (n - k))
  else ReadOutcome.ok []

/-- Outcome of the SOCKS connect performed by `SocksHTTPConnection._new_conn`
(lines 244-260): success, a socket timeout, a SOCKS protocol failure
(`SocksProxyError`), or another OS-level failure. -/
inductive SocksConnEvent where
  | connected
  | timedOut
  | socksFailure
  | osFailure
deriving DecidableEq, Repr

/-- Models the except clauses of `SocksHTTPConnection._new_conn` (lines
249-258): a `TimeoutError` during the SOCKS connect is re-raised as
`urllib3.exceptions.ConnectTimeoutError`, a `SocksProxyError` as
`urllib3.exceptions.ProxyError` (raised without a message), and any other
`OSError` as `urllib3.exceptions.NewConnectionError`. -/
def socks_new_conn : SocksConnEvent → Except RawReason Unit
  | .connected => Except.ok ()
  | .timedOut => Except.error RawReason.connectTimeoutError
  | .socksFailure => Except.error (RawReason.proxyError "")
  | .osFailure => Except.error RawReason.newConnectionError

/-- ASCII lowercase of one character (the case folding used for header names
and host names). -/
def lowerChar (c : Char) : Char :=
  if 65 ≤ c.toNat ∧ c.toNat ≤ 90 then Char.ofNat (c.toNat + 32) else c

/-- ASCII lowercase of a string. -/
def lowerStr (s : String) : String := String.mk (s.data.map lowerChar)

/-- Modelled from the spec: `UniqueHTTPHeaderStore` (networking/common.py is
not under src/).  Per spec section 3 the header collection is case-insensitive
and preserves insertion order, and the store keeps a unique entry per
(case-insensitive) name; setting a name replaces any existing entry, deleting
removes every case-insensitive match.  An entry is a (name, value) pair. -/
abbrev HeaderStore := List (String × String)

/-- Case-insensitive header key (lowercased name). -/
def hkey (s : String) : String := lowerStr s

/-- Membership test, case-insensitive. -/
def hmem (st : HeaderStore) (n : String) : Bool :=
  st.any (fun p => decide (hkey p.1 = hkey n))

/-- Set a header: drop every case-insensitive match, then append the new
entry. -/
def hset (st : HeaderStore) (n v : String) : HeaderStore :=
  st.filter (fun p => decide (hkey p.1 ≠ hkey n)) ++ [(n, v)]

/-- Delete every case-insensitive match of a header name. -/
def hdel (st : HeaderStore) (n : String) : HeaderStore :=
  st.filter (fun p => decide (hkey p.1 ≠ hkey n))

/-- Look up a header value, case-insensitively (the last entry wins, though
the store keeps at most one per name). -/
def hget (st : HeaderStore) (n : String) : Option String :=
  ((st.filter (fun p => decide (hkey p.1 = hkey n))).getLast?).map Prod.snd

/-- Layer a second store on top of a first: every entry of the second is set
into the first in insertion order, so later layers override earlier ones.
This models `UniqueHTTPHeaderStore(a, b, c, d)` at lines 178-179, whose later
constructor arguments take precedence. -/
def hmerge (st other : HeaderStore) : HeaderStore :=
  other.foldl (fun acc p => hset acc p.1 p.2) st

/-- A cookie of the shared store.  Modelled from the spec: the cookie store
(`self.cookiejar`, owned by networking/common.py which is not under src/)
holds cookies keyed by domain; a cookie is applicable to a request whose URL
host matches its domain. -/
structure Cookie where
  domain : String
  name : String
  value : String
deriving DecidableEq, Repr

/-- The cookies of the store applicable to a request host. -/
def cookies_for (jar : List Cookie) (host : String) : List Cookie :=
  jar.filter (fun c => c.domain == host)

/-- Render a cookie list as the value of a Cookie header. -/
def cookie_header_value (cs : List Cookie) : String :=
  String.intercalate "; " (cs.map (fun c => c.name ++ "=" ++ c.value))

/-- The outbound request consumed by the transport core (the fields of the
networking Request that `_real_handle` reads; body and timeout are omitted as
no modelled behaviour depends on them).  `host` is the host component of
`url`, used by the cookie store to match applicable cookies. -/
structure Request where
  method : String
  url : String
  host : String
  headers : HeaderStore
  unredirected_headers : HeaderStore
  compression : Bool
  proxy : Option String
deriving DecidableEq, Repr

/-- Models `self.cookiejar.add_cookie_header(request)` at line 171.  Modelled
from the spec (section 4.6) and the `http.cookiejar` contract it references:
cookies applicable to the request URL are merged into the outgoing headers as
one Cookie header, added as an unredirected header, without overriding an
explicitly caller-set Cookie header, and only when some cookie applies. -/
def add_cookie_header (jar : List Cookie) (req : Request) : Request :=
  let applicable := cookies_for jar req.host
  if hmem req.headers "Cookie" || hmem req.unredirected_headers "Cookie"
      || applicable.isEmpty then req
  else
    let uh := hset req.unredirected_headers "Cookie" (cookie_header_value applicable)
    { req with unredirected_headers := uh }

/-- The encodings the backend can decode (line 39-41; the conditional brotli
addition at lines 43-46 depends on the runtime and is not modelled). -/
def SUPPORTED_ENCODINGS : List String := ["gzip", "deflate"]

/-- Models lines 178-185 of `_real_handle`: layer process defaults, session
headers, request headers and unredirected headers in that precedence order;
if no Accept-Encoding is present, advertise the supported encodings; if the
request disables compression, delete the accept-encoding header
(case-insensitively) from the final set. -/
def build_headers (std ses : HeaderStore) (req : Request) : HeaderStore :=
  let headers := hmerge (hmerge (hmerge std ses) req.headers) req.unredirected_headers
  let headers :=
    if hmem headers "Accept-Encoding" then headers
    else hset headers "Accept-Encoding" (String.intercalate ", " SUPPORTED_ENCODINGS)
  if req.compression then headers else hdel headers "accept-encoding"

/-- The raw urllib3 response as `_real_handle` sees it after `urlopen`
returned: its status, the retry budget left on it (`retries.total`, used for
the redirect-loop flag at line 229), the identity of the live connection still
attached to it (`_connection`, None once released), whether its
`release_conn` has been replaced by the `Urllib3HTTPError` override, and the
cookies carried by its cookie-setting response headers. -/
structure U3Res where
  status : Nat
  retriesTotal : Int
  conn : Option Nat
  releaseOverridden : Bool
  setCookies : List Cookie
deriving DecidableEq, Repr

/-- Models `self.cookiejar.extract_cookies(res, request)` at line 232:
the cookies set by the response are added to the shared store. -/
def extract_cookies (jar : List Cookie) (r : U3Res) : List Cookie :=
  jar ++ r.setCookies

/-- Models `Urllib3HTTPError.__init__` (lines 78-85): constructing the HTTP
error replaces `release_conn` on the wrapped urllib3 response with an override
that closes the connection instead of pooling it, and builds the typed error
with the redirect-loop flag (`urllib3_res.retries.total == 0`, line 229). -/
def mk_urllib3_http_error (r : U3Res) : U3Res × Err :=
  ({ r with releaseOverridden := true },
   Err.httpStatus r.status (r.retriesTotal == 0))

/-- The connection state of one urllib3 connection pool: the idle set a new
request draws reusable connections from, and the connections that have been
closed (discarded).  An in-flight connection is in neither list. -/
structure ConnPool where
  idle : List Nat
  closedConns : List Nat
deriving DecidableEq, Repr

/-- Models releasing the connection of a response.  Default urllib3 behaviour
(`HTTPResponse.release_conn`): put `_connection` back into the idle set of the
pool and clear it.  When `Urllib3HTTPError` has installed its override (lines
80-84), the connection is closed and cleared instead, and never returned to
the idle set. -/
def release_conn (r : U3Res) (p : ConnPool) : U3Res × ConnPool :=
  match r.conn with
  | none => (r, p)
  | some c =>
      if r.releaseOverridden then
        ({ r with conn := none }, { p with closedConns := p.closedConns ++ [c] })
      else
        ({ r with conn := none }, { p with idle := p.idle ++ [c] })

/-- Outcome of the dispatch through `pool.urlopen` (line 195): a raw response
or a raw urllib3 fault. -/
inductive DispatchOutcome where
  | ok (r : U3Res)
  | err (e : RawDispatch)
deriving DecidableEq, Repr

/-- The observable outcome of one `_real_handle` call: the header set that was
dispatched, the result (a response or exactly one typed error), the cookie
store after the call, and, on an HTTP-status error, the response object
attached to the raised error (carrying the release override). -/
structure HandleResult where
  sentHeaders : HeaderStore
  result : Except Err U3Res
  jar : List Cookie
  erroredRes : Option U3Res

/-- Models `Urllib3RH._real_handle` (lines 170-234) around a backend dispatch
function (the `pool.urlopen` call, abstracted as a function of the dispatched
header set).  In source order: inject cookies (line 171), build the header set
(lines 175-185), dispatch (line 195) translating any raw fault through the
except-chain (lines 207-225), then check the status: a non-2xx status raises
`Urllib3HTTPError` at line 229 BEFORE the cookie extraction at lines 231-232,
which therefore only runs on a 2xx response; the extraction is additionally
guarded by the truthiness of the cookie store (`if self.cookiejar:`), which
for a cookie jar is its non-emptiness. -/
def real_handle (jar : List Cookie) (std ses : HeaderStore) (req : Request)
    (backend : HeaderStore → DispatchOutcome) : HandleResult :=
  let req1 := add_cookie_header jar req
  let headers := build_headers std ses req1
  match backend headers with
  | .err raw =>
      { sentHeaders := headers, result := Except.error (dispatch_error_translate raw),
        jar := jar, erroredRes := none }
  | .ok r =>
      if 200 ≤ r.status ∧ r.status < 300 then
        { sentHeaders := headers, result := Except.ok r,
          jar := if jar.isEmpty then jar else extract_cookies jar r,
          erroredRes := none }
      else
        { sentHeaders := headers,
          result := Except.error (mk_urllib3_http_error r).2,
          jar := jar, erroredRes := some (mk_urllib3_http_error r).1 }

/-- Dictionary lookup on an association list (the Python dict `self.pools`
keyed by proxy-identity string). -/
def alist_get (key : String) : List (String × Nat) → Option Nat
  | [] => none
  | (k, v) :: t => if k = key then some v else alist_get key t

/-- The pool registry of one backend instance: the mapping from proxy-identity
string to pool (`self.pools`, initialised empty at line 133), plus a counter
supplying the identity of the next pool-manager object constructed by
`_create_pm` (two calls construct two distinct objects). -/
structure RHState where
  pools : List (String × Nat)
  nextId : Nat
deriving DecidableEq, Repr

/-- The proxy-identity key used at line 162: the proxy string, or the
sentinel `__noproxy__` when the proxy is falsy, where
Python treats both None and the empty string as falsy. -/
def pool_key : Option String → String
  | none => "__noproxy__"
  | some s => if s = "" then "__noproxy__" else s

/-- Models `get_pool` (lines 161-162):
`self.pools.setdefault` on the sentinel key with a freshly built pool manager.
Python evaluates the `setdefault` argument first, so a fresh pool-manager
object is constructed on every call (the counter always advances); it is
retained only when the key is absent, otherwise the stored pool is returned
and the fresh object is discarded. -/
def get_pool (st : RHState) (proxy : Option String) : Nat × RHState :=
  let key := pool_key proxy
  let freshId := st.nextId
  let st1 : RHState := { st with nextId := st.nextId + 1 }
  match alist_get key st1.pools with
  | some pid => (pid, st1)
  | none => (freshId, { st1 with pools := st1.pools ++ [(key, freshId)] })

/-- The parsed URL produced by urllib3 `parse_url` (util/url.py): a tuple of
optional components.  `parse_url` detects a scheme only via an explicit
`scheme://` prefix, so a bare `host:port` proxy string parses with
`scheme = none`. -/
structure Urllib3Url where
  scheme : Option String
  auth : Option String
  host : Option String
  port : Option Nat
  path : Option String
  query : Option String
  fragment : Option String
deriving DecidableEq, Repr

/-- The `url` property of urllib3 `Url`: re-render the components. -/
def Urllib3Url.url (u : Urllib3Url) : String :=
  (match u.scheme with | some s => s ++ "://" | none => "") ++
  (match u.auth with | some a => a ++ "@" | none => "") ++
  (match u.host with | some h => h | none => "") ++
  (match u.port with | some p => ":" ++ toString p | none => "") ++
  (match u.path with | some p => p | none => "") ++
  (match u.query with | some q => "?" ++ q | none => "") ++
  (match u.fragment with | some f => "#" ++ f | none => "")

/-- Models lines 187-192 of `_real_handle`: when the parsed proxy URL has no
scheme, it is replaced by the scheme of the parsed target URL
(`proxy_parsed._replace(scheme=parse_url(request.url).scheme)`); a proxy URL
that already has a scheme is left untouched.  The resolved proxy is the value
passed to `get_pool` at line 195 for pool selection.  The resolution is a pure
function of the two parsed URLs: no network I/O is involved. -/
def resolve_proxy (proxyParsed : Urllib3Url) (targetScheme : Option String) : Urllib3Url :=
  if proxyParsed.scheme = none then { proxyParsed with scheme := targetScheme }
  else proxyParsed

/-- The parsed URL produced by `compat_urllib_parse_urlparse` (the stdlib
urlparse): scheme, netloc, path, params, query, fragment, with absent parts
as empty strings. -/
structure StdUrl where
  scheme : String
  netloc : String
  path : String
  params : String
  query : String
  fragment : String
deriving DecidableEq, Repr

/-- The characters after the last `@` of a netloc (the stdlib strips the
userinfo part before extracting the hostname). -/
def after_last_at (cs : List Char) : List Char :=
  cs.foldl (fun acc c => if c = '@' then [] else acc ++ [c]) []

/-- The characters before the first `:` (the stdlib strips the port before
extracting the hostname). -/
def before_first_colon (cs : List Char) : List Char :=
  cs.takeWhile (fun c => decide (c ≠ ':'))

/-- The `hostname` attribute of a parsed URL per the stdlib: drop the userinfo
(everything up to the last `@`), take what precedes the first `:`, lowercase
it, and yield none when it is empty.  (IPv6 bracket handling is not needed for
the modelled inputs.) -/
def hostname_of (netloc : String) : Option String :=
  let host := before_first_colon (after_last_at netloc.data)
  if host.isEmpty then none else some (String.mk (host.map lowerChar))

/-- The stdlib `geturl` / `urlunparse` rendering of a parsed URL: path, then
`;params`, then the `//netloc` prefix when a netloc is present (or the path
itself starts with `//`), then `scheme:`, then `?query` and `#fragment`, each
only when non-empty. -/
def urlunparse (u : StdUrl) : String :=
  let url := u.path
  let url := if u.params ≠ "" then url ++ ";" ++ u.params else url
  let url :=
    if u.netloc ≠ "" ∨ url.data.take 2 = ['/', '/'] then
      "//" ++ u.netloc ++ (if url ≠ "" ∧ url.data.take 1 ≠ ['/'] then "/" ++ url else url)
    else url
  let url := if u.scheme ≠ "" then u.scheme ++ ":" ++ url else url
  let url := if u.query ≠ "" then url ++ "?" ++ u.query else url
  if u.fragment ≠ "" then url ++ "#" ++ u.fragment else url

/-- Models the final-URL fix-up of `Urllib3ResponseAdapter.__init__` together
with `geturl` (lines 88-109): when the backend-reported URL is absent the
stored URL stays absent; when it parses without a hostname, the netloc is
rebuilt from the live connection host and port and the scheme is set
unconditionally to https (lines 96-101); otherwise the parsed URL is
re-rendered unchanged (line 102).  `geturl` returns the stored URL. -/
def adapter_final_url (reported : Option StdUrl) (connHost : String) (connPort : Nat) :
    Option String :=
  match reported with
  | none => none
  | some u =>
      let u2 :=
        if hostname_of u.netloc = none then
          { u with netloc := connHost ++ ":" ++ toString connPort, scheme := "https" }
        else u
      some (urlunparse u2)

/-- The redirect-relevant part of the Retry object built at lines 175-177:
`Retry(remove_headers_on_redirect=request.unredirected_headers.keys(),
raise_on_redirect=False, other=0, read=0, connect=0)`.  urllib3 stores the
names as a frozenset of lowercased strings (util/retry.py). -/
structure RetryConfig where
  removeHeadersOnRedirect : List String
  raiseOnRedirect : Bool
  connectRetries : Nat
  readRetries : Nat
  otherRetries : Nat
deriving DecidableEq, Repr

/-- Build the Retry configuration of lines 175-177 from the unredirected
header names of the request. -/
def mk_retries (unredirectedNames : List String) : RetryConfig :=
  { removeHeadersOnRedirect := unredirectedNames.map (fun s => lowerStr s),
    raiseOnRedirect := false, connectRetries := 0, readRetries := 0,
    otherRetries := 0 }

/-- The origin identity of a connection pool or of an absolute redirect
target: scheme, (normalized) host, optional explicit port. -/
structure HostId where
  scheme : String
  host : String
  port : Option Nat
deriving DecidableEq, Repr

/-- urllib3 default port table (`port_by_scheme`). -/
def port_by_scheme : String → Option Nat
  | "http" => some 80
  | "https" => some 443
  | _ => none

/-- Python truthiness of an optional port number. -/
def opt_truthy : Option Nat → Bool
  | some p => p != 0
  | none => false

/-- urllib3 `HTTPConnectionPool.is_same_host` (connectionpool.py), the test
guarding the redirect header stripping: a relative redirect target (a URL
starting with `/`, modelled as `none`) is always the same host; an absolute
target is the same host only when its scheme, its lowercased host and its
port (after substituting the scheme default for a missing port on either
side) all equal those of the pool.  The pool host is already normalized at
pool construction. -/
def is_same_host (conn : HostId) (target : Option HostId) : Bool :=
  match target with
  | none => true
  | some t =>
      let port :=
        if opt_truthy conn.port && !(opt_truthy t.port) then port_by_scheme t.scheme
        else if !(opt_truthy conn.port) && (t.port == port_by_scheme t.scheme) then none
        else t.port
      t.scheme == conn.scheme && lowerStr t.host == conn.host && port == conn.port

/-- urllib3 `PoolManager.urlopen` redirect handling (poolmanager.py): before
re-issuing the request at the redirect location, when the Retry carries a
non-empty remove-on-redirect set and the target is not the same host (per
`is_same_host`), every header whose lowercased name is in the set is removed
from the header set applied to the redirected request; otherwise the header
set is left untouched. -/
def redirect_headers (headers : HeaderStore) (retries : RetryConfig)
    (conn : HostId) (target : Option HostId) : HeaderStore :=
  if retries.removeHeadersOnRedirect ≠ [] ∧ is_same_host conn target = false then
    headers.filter (fun p => decide (hkey p.1 ∉ retries.removeHeadersOnRedirect))
  else headers

/-- C1: for every raw backend fault raised during dispatch (the except-chain
of `_real_handle`) or during a response body read
(`Urllib3ResponseAdapter.read`), the transport core surfaces exactly one typed
error of the taxonomy — the value of the total translation functions — and no
raw urllib3/http.client fault escapes unwrapped: the result of either
operation on a raw fault is always `Except.error` of one `Err`. -/
theorem c1_every_raw_fault_surfaces_as_one_typed_error :
    ∀ (jar : List Cookie) (std ses : HeaderStore) (req : Request)
      (raw : RawDispatch) (rr : RawRead),
      (real_handle jar std ses req (fun _ => DispatchOutcome.err raw)).result
          = Except.error (dispatch_error_translate raw) ∧
      adapter_read (ReadOutcome.err rr) = Except.error (read_error_translate rr) := by
  intro jar std ses req raw rr
  exact ⟨rfl, rfl⟩

/-- C6: a request proxy URL that parses without a scheme is resolved by
substituting the scheme of the request target URL (not a fixed default), and
a proxy URL that already carries a scheme is used unchanged; the resolution
(lines 187-192) is a pure function — no network I/O, deterministic. -/
theorem c6_proxy_scheme_resolution (p : Urllib3Url) (ts : Option String) :
    (p.scheme = none →
      (resolve_proxy p ts).scheme = ts ∧ resolve_proxy p ts = { p with scheme := ts }) ∧
    (p.scheme ≠ none → resolve_proxy p ts = p) := by
  constructor
  · intro h
    rw [resolve_proxy, if_pos h]
    exact ⟨rfl, rfl⟩
  · intro h
    rw [resolve_proxy, if_neg h]

/-- Witness for C6 at a concrete scheme-less proxy (a bare `host:port` entry)
with an https target, and at a proxy that already has a scheme. -/
theorem c6_proxy_scheme_resolution_witness :
    (resolve_proxy ⟨none, none, some "1.2.3.4", some 1080, none, none, none⟩
        (some "https")).scheme = some "https" ∧
    resolve_proxy ⟨some "http", none, some "1.2.3.4", some 1080, none, none, none⟩
        (some "https")
      = ⟨some "http", none, some "1.2.3.4", some 1080, none, none, none⟩ :=
  ⟨((c6_proxy_scheme_resolution
      ⟨none, none, some "1.2.3.4", some 1080, none, none, none⟩ (some "https")).1 rfl).1,
   (c6_proxy_scheme_resolution
      ⟨some "http", none, some "1.2.3.4", some 1080, none, none, none⟩ (some "https")).2
      (by simp)⟩

/-- C7: a timeout in the connection-establishment phase — the urllib3
`ConnectTimeoutError`, including the one `SocksHTTPConnection._new_conn`
raises for a timed-out SOCKS connect, also when it arrives wrapped in a
`MaxRetryError` — surfaces as the ConnectTimeout error and never as
ReadTimeout, while a timeout during the body read (or a `ReadTimeoutError`
surfaced by `urlopen`) surfaces as the ReadTimeout error. -/
theorem c7_connect_vs_read_timeout :
    dispatch_error_translate (.direct .connectTimeoutError) = Err.connectTimeout ∧
    dispatch_error_translate (.maxRetryError (some .connectTimeoutError))
        = Err.connectTimeout ∧
    socks_new_conn .timedOut = Except.error RawReason.connectTimeoutError ∧
    dispatch_error_translate (.direct .connectTimeoutError) ≠ Err.readTimeout ∧
    adapter_read (.err .readTimeoutError) = Except.error Err.readTimeout ∧
    dispatch_error_translate (.maxRetryError (some .readTimeoutError))
        = Err.readTimeout :=
  ⟨rfl, rfl, rfl, by decide, rfl, rfl⟩

/-- C8 counterexample: a body declared as 10 bytes whose read ends after 3
bytes surfaces as IncompleteRead carrying (3, 7) — the `expected` field is the
REMAINING byte count 7 (`length_remaining`), not the declared total 10 as the
claim states. -/
theorem c8_expected_is_remaining_counterexample :
    adapter_read (u3_read_eof 10 3) = Except.error (Err.incompleteRead 3 (some 7)) ∧
    (7 : Nat) ≠ 10 :=
  ⟨rfl, by decide⟩

/-- C8 amended: a body declared as N bytes whose read terminates after k < N
bytes yields IncompleteRead carrying the received count k and
expected = N - k (the remaining count), so received + expected = N and
received < N (the claim said expected = N with received < expected). -/
theorem c8_truncated_body_incomplete_read (n k : Nat) (h : k < n) :
    adapter_read (u3_read_eof n k)
        = Except.error (Err.incompleteRead k (some (n - k))) ∧
    k < n ∧ k + (n - k) = n := by
  have hnz : n - k ≠ 0 := Nat.sub_ne_zero_of_lt h
  refine ⟨?_, h, Nat.add_sub_cancel' (Nat.le_of_lt h)⟩
  rw [u3_read_eof, if_pos hnz]
  rfl

/-- Witness for the amended C8 at a declared length of 10 truncated after 3
bytes. -/
theorem c8_truncated_body_incomplete_read_witness :
    adapter_read (u3_read_eof 10 3) = Except.error (Err.incompleteRead 3 (some (10 - 3))) ∧
    3 < 10 ∧ 3 + (10 - 3) = 10 :=
  c8_truncated_body_incomplete_read 10 3 (by decide)

/-- C10: when the backend-reported final URL parses without a hostname,
`geturl` returns it rebuilt with the netloc taken from the live connection
host and port and the scheme set unconditionally to https (whatever scheme,
http included, the reported URL carried); when it has a hostname, the parsed
URL is rendered unmodified. -/
theorem c10_final_url_rebuild (u : StdUrl) (chost : String) (cport : Nat) :
    (hostname_of u.netloc = none →
      adapter_final_url (some u) chost cport
        = some (urlunparse
            { u with netloc := chost ++ ":" ++ toString cport, scheme := "https" })) ∧
    (hostname_of u.netloc ≠ none →
      adapter_final_url (some u) chost cport = some (urlunparse u)) := by
  constructor
  · intro h
    simp only [adapter_final_url, if_pos h]
  · intro h
    simp only [adapter_final_url, if_neg h]

/-- Witness for C10: a hostname-less reported URL with scheme http is rebuilt
on the connection host and port with scheme https; a reported URL with a
hostname renders unchanged. -/
theorem c10_final_url_rebuild_witness :
    adapter_final_url (some ⟨"http", "", "/redirected", "", "", ""⟩) "origin.example" 8443
      = some (urlunparse ⟨"https", "origin.example" ++ ":" ++ toString 8443,
          "/redirected", "", "", ""⟩) ∧
    adapter_final_url (some ⟨"http", "example.com", "/p", "", "", ""⟩) "h" 1
      = some (urlunparse ⟨"http", "example.com", "/p", "", "", ""⟩) :=
  ⟨(c10_final_url_rebuild ⟨"http", "", "/redirected", "", "", ""⟩ "origin.example" 8443).1
      (by decide),
   (c10_final_url_rebuild ⟨"http", "example.com", "/p", "", "", ""⟩ "h" 1).2 (by decide)⟩

/-- C2: a final response status outside 200-299 makes `_real_handle` fail
with the HTTPStatus error, and the response attached to the raised error
carries the `release_conn` override, under which releasing the connection
closes it (it lands in the closed set) and never returns it to the pool idle
set — so a later request drawing reusable connections from the idle set can
never obtain it. -/
theorem c2_http_error_discards_connection (jar : List Cookie) (std ses : HeaderStore)
    (req : Request) (r : U3Res) (c : Nat) (p : ConnPool)
    (hst : ¬ (200 ≤ r.status ∧ r.status < 300)) (hc : r.conn = some c)
    (hidle : c ∉ p.idle) :
    (real_handle jar std ses req (fun _ => DispatchOutcome.ok r)).result
        = Except.error (Err.httpStatus r.status (r.retriesTotal == 0)) ∧
    (real_handle jar std ses req (fun _ => DispatchOutcome.ok r)).erroredRes
        = some { r with releaseOverridden := true } ∧
    c ∉ ((release_conn { r with releaseOverridden := true } p).2).idle ∧
    c ∈ ((release_conn { r with releaseOverridden := true } p).2).closedConns := by
  refine ⟨?_, ?_, ?_, ?_⟩
  · simp [real_handle, hst, mk_urllib3_http_error]
  · simp [real_handle, hst, mk_urllib3_http_error]
  · simpa [release_conn, hc] using hidle
  · simp [release_conn, hc]

/-- Witness for C2: a concrete 500 response on connection 7, with a pool whose
idle set is [1, 2]. -/
theorem c2_http_error_discards_connection_witness :
    (real_handle [] [] [] ⟨"GET", "https://a.com/x", "a.com", [], [], true, none⟩
        (fun _ => DispatchOutcome.ok ⟨500, 3, some 7, false, []⟩)).result
        = Except.error (Err.httpStatus 500 false) ∧
    (real_handle [] [] [] ⟨"GET", "https://a.com/x", "a.com", [], [], true, none⟩
        (fun _ => DispatchOutcome.ok ⟨500, 3, some 7, false, []⟩)).erroredRes
        = some ⟨500, 3, some 7, true, []⟩ ∧
    7 ∉ ((release_conn ⟨500, 3, some 7, true, []⟩ ⟨[1, 2], []⟩).2).idle ∧
    7 ∈ ((release_conn ⟨500, 3, some 7, true, []⟩ ⟨[1, 2], []⟩).2).closedConns :=
  c2_http_error_discards_connection [] [] []
    ⟨"GET", "https://a.com/x", "a.com", [], [], true, none⟩
    ⟨500, 3, some 7, false, []⟩ 7 ⟨[1, 2], []⟩ (by decide) rfl (by decide)

/-- Appending a fresh key to an association list makes it found there. -/
theorem alist_get_append_of_none {l : List (String × Nat)} {k : String} {v : Nat}
    (h : alist_get k l = none) : alist_get k (l ++ [(k, v)]) = some v := by
  induction l with
  | nil => simp [alist_get]
  | cons hd tl ih =>
      obtain ⟨k1, v1⟩ := hd
      rw [List.cons_append]
      rw [alist_get] at h ⊢
      by_cases hk : k1 = k
      · rw [if_pos hk] at h
        exact absurd h (by simp)
      · rw [if_neg hk] at h ⊢
        exact ih h

/-- A key that lookup misses is not among the keys. -/
theorem not_mem_keys_of_alist_get_none {l : List (String × Nat)} {k : String}
    (h : alist_get k l = none) : k ∉ l.map Prod.fst := by
  induction l with
  | nil => simp
  | cons hd tl ih =>
      obtain ⟨k1, v1⟩ := hd
      rw [alist_get] at h
      by_cases hk : k1 = k
      · rw [if_pos hk] at h
        exact absurd h (by simp)
      · rw [if_neg hk] at h
        simp only [List.map_cons, List.mem_cons]
        rintro (h1 | h1)
        · exact hk h1.symm
        · exact ih h h1

/-- After any `get_pool` call, the registry stores the returned pool under the
proxy-identity key. -/
theorem get_pool_lookup (st : RHState) (p : Option String) :
    alist_get (pool_key p) (get_pool st p).2.pools = some (get_pool st p).1 := by
  cases hl : alist_get (pool_key p) st.pools with
  | some pid => simp [get_pool, hl]
  | none =>
      simp only [get_pool, hl]
      exact alist_get_append_of_none hl

/-- When the registry already stores a pool for the key, `get_pool` returns it
and leaves the registry mapping unchanged. -/
theorem get_pool_of_some (st : RHState) (p : Option String) (pid : Nat)
    (h : alist_get (pool_key p) st.pools = some pid) :
    (get_pool st p).1 = pid ∧ (get_pool st p).2.pools = st.pools := by
  simp [get_pool, h]

/-- `get_pool` preserves distinctness of the registry keys: at most one pool
is retained per proxy identity. -/
theorem get_pool_nodup (st : RHState) (p : Option String)
    (h : (st.pools.map Prod.fst).Nodup) :
    ((get_pool st p).2.pools.map Prod.fst).Nodup := by
  cases hl : alist_get (pool_key p) st.pools with
  | some pid => simpa [get_pool, hl] using h
  | none =>
      simp only [get_pool, hl]
      rw [List.map_append]
      exact h.append (List.nodup_singleton _)
        (List.disjoint_singleton.mpr (not_mem_keys_of_alist_get_none hl))

/-- C3: within one backend instance whose registry keys are distinct, two
`get_pool` calls for the same proxy identity (the no-proxy identity keyed by
the `__noproxy__` sentinel included) return the identical stored pool: the
second call returns exactly what the first call returned and stored under the
identity key, and the registry keys stay distinct, so at most one pool is ever
retained per identity. -/
theorem c3_get_pool_same_identity_same_pool (st : RHState) (p1 p2 : Option String)
    (hnd : (st.pools.map Prod.fst).Nodup) (hk : pool_key p1 = pool_key p2) :
    (get_pool (get_pool st p1).2 p2).1 = (get_pool st p1).1 ∧
    alist_get (pool_key p1) (get_pool st p1).2.pools = some (get_pool st p1).1 ∧
    ((get_pool (get_pool st p1).2 p2).2.pools.map Prod.fst).Nodup := by
  have h1 := get_pool_lookup st p1
  have h2 : alist_get (pool_key p2) (get_pool st p1).2.pools = some (get_pool st p1).1 := by
    rw [← hk]
    exact h1
  have h3 := get_pool_of_some (get_pool st p1).2 p2 _ h2
  refine ⟨h3.1, h1, ?_⟩
  exact get_pool_nodup (get_pool st p1).2 p2 (get_pool_nodup st p1 hnd)

/-- Witness for C3: two calls for the same proxy on a fresh registry, and two
calls for the no-proxy identity. -/
theorem c3_get_pool_same_identity_same_pool_witness :
    (get_pool (get_pool ⟨[], 0⟩ (some "http://127.0.0.1:3128")).2
        (some "http://127.0.0.1:3128")).1
      = (get_pool ⟨[], 0⟩ (some "http://127.0.0.1:3128")).1 ∧
    (get_pool (get_pool ⟨[], 5⟩ none).2 (some "")).1 = (get_pool ⟨[], 5⟩ none).1 :=
  ⟨(c3_get_pool_same_identity_same_pool ⟨[], 0⟩ (some "http://127.0.0.1:3128")
      (some "http://127.0.0.1:3128") (by simp) rfl).1,
   (c3_get_pool_same_identity_same_pool ⟨[], 5⟩ none (some "") (by simp) (by decide)).1⟩

/-- C4 counterexample: a 3xx redirect to the SAME host but another scheme
(https to http) also strips the unredirected headers — urllib3 strips them
whenever the redirect target is not the same (scheme, host, port) — refuting
the claim that a same-host redirect preserves them all. -/
theorem c4_same_host_redirect_counterexample :
    (⟨"http", "example.com", none⟩ : HostId).host
      = (⟨"https", "example.com", some 443⟩ : HostId).host ∧
    redirect_headers [("Authorization", "token")] (mk_retries ["Authorization"])
        ⟨"https", "example.com", some 443⟩ (some ⟨"http", "example.com", none⟩)
      ≠ [("Authorization", "token")] :=
  ⟨rfl, by decide⟩

/-- C4 amended: the unredirected headers are stripped from the header set of
the redirected request whenever the redirect target host differs from the
pool host (and, more generally, whenever scheme, host or default-normalized
port differ, per urllib3 is_same_host); they are all preserved exactly when
the target matches the pool on scheme, host and port, and for a relative
redirect target. -/
theorem c4_unredirected_headers_on_redirect (headers : HeaderStore)
    (uh : List String) (conn : HostId) (t : HostId) :
    (lowerStr t.host ≠ conn.host →
      ∀ q ∈ redirect_headers headers (mk_retries uh) conn (some t),
        hkey q.1 ∉ (mk_retries uh).removeHeadersOnRedirect) ∧
    (is_same_host conn (some t) = true →
      redirect_headers headers (mk_retries uh) conn (some t) = headers) ∧
    redirect_headers headers (mk_retries uh) conn none = headers := by
  refine ⟨?_, ?_, ?_⟩
  · intro hh q hq
    by_cases hrem : (mk_retries uh).removeHeadersOnRedirect = []
    · simp [hrem]
    · have hb : (lowerStr t.host == conn.host) = false := beq_eq_false_iff_ne.mpr hh
      have hsh : is_same_host conn (some t) = false := by
        simp [is_same_host, hb]
      rw [redirect_headers, if_pos ⟨hrem, hsh⟩] at hq
      exact of_decide_eq_true (List.mem_filter.mp hq).2
  · intro hs
    rw [redirect_headers]
    apply if_neg
    rintro ⟨-, h2⟩
    rw [hs] at h2
    exact Bool.noConfusion h2
  · rw [redirect_headers]
    apply if_neg
    rintro ⟨-, h2⟩
    exact Bool.noConfusion h2

/-- Witness for the amended C4: a cross-host redirect keeps only headers
outside the unredirected set (the surviving Accept entry is not in it), a
same-origin absolute target preserves the header set, and so does a relative
target. -/
theorem c4_unredirected_headers_on_redirect_witness :
    hkey (("Accept", "x") : String × String).1
        ∉ (mk_retries ["Authorization"]).removeHeadersOnRedirect ∧
    redirect_headers [("Authorization", "tok"), ("Accept", "x")]
        (mk_retries ["Authorization"]) ⟨"https", "a.com", some 443⟩
        (some ⟨"https", "a.com", some 443⟩)
      = [("Authorization", "tok"), ("Accept", "x")] ∧
    redirect_headers [("Authorization", "tok"), ("Accept", "x")]
        (mk_retries ["Authorization"]) ⟨"https", "a.com", some 443⟩ none
      = [("Authorization", "tok"), ("Accept", "x")] :=
  ⟨(c4_unredirected_headers_on_redirect [("Authorization", "tok"), ("Accept", "x")]
      ["Authorization"] ⟨"https", "a.com", some 443⟩ ⟨"https", "b.com", some 443⟩).1
      (by decide) ("Accept", "x") (by decide),
   (c4_unredirected_headers_on_redirect [("Authorization", "tok"), ("Accept", "x")]
      ["Authorization"] ⟨"https", "a.com", some 443⟩ ⟨"https", "a.com", some 443⟩).2.1
      (by decide),
   (c4_unredirected_headers_on_redirect [("Authorization", "tok"), ("Accept", "x")]
      ["Authorization"] ⟨"https", "a.com", some 443⟩ ⟨"https", "a.com", some 443⟩).2.2⟩

/-- Filtering for one key after filtering that key away yields nothing. -/
theorem filter_key_contra (st : HeaderStore) (n : String) :
    (st.filter (fun p => decide (hkey p.1 ≠ hkey n))).filter
        (fun p => decide (hkey p.1 = hkey n)) = [] := by
  induction st with
  | nil => rfl
  | cons a t ih =>
      rw [List.filter_cons]
      by_cases hc : hkey a.1 = hkey n
      · rw [if_neg (by simp [hc]), ih]
      · rw [if_pos (by simp [hc]), List.filter_cons, if_neg (by simp [hc]), ih]

/-- Filtering a key away does not change the entries of a different key. -/
theorem filter_key_filter_ne (st : HeaderStore) (n m : String) (h : hkey m ≠ hkey n) :
    (st.filter (fun p => decide (hkey p.1 ≠ hkey n))).filter
        (fun p => decide (hkey p.1 = hkey m))
      = st.filter (fun p => decide (hkey p.1 = hkey m)) := by
  induction st with
  | nil => rfl
  | cons a t ih =>
      rw [List.filter_cons]
      by_cases hn : hkey a.1 = hkey n
      · rw [if_neg (by simp [hn]), ih, List.filter_cons,
          if_neg (by simp only [decide_eq_true_eq]; exact fun hem => h (hem.symm.trans hn))]
      · rw [if_pos (by simp [hn]), List.filter_cons, List.filter_cons]
        by_cases hm : hkey a.1 = hkey m
        · rw [if_pos (by simp [hm]), if_pos (by simp [hm]), ih]
        · rw [if_neg (by simp [hm]), if_neg (by simp [hm]), ih]

/-- Looking up the key just set yields the new value. -/
theorem hget_hset_self (st : HeaderStore) (n v : String) :
    hget (hset st n v) n = some v := by
  rw [hget, hset, List.filter_append, filter_key_contra]
  simp [List.filter_cons]

/-- Setting one key does not change the lookup of a different key. -/
theorem hget_hset_ne (st : HeaderStore) (n v m : String) (h : hkey m ≠ hkey n) :
    hget (hset st n v) m = hget st m := by
  rw [hget, hset, List.filter_append, filter_key_filter_ne st n m h]
  have h2 : List.filter (fun p => decide (hkey p.1 = hkey m)) [(n, v)] = [] := by
    simp [List.filter_cons, Ne.symm h]
  rw [h2, List.append_nil, hget]

/-- Deleting one key does not change the lookup of a different key. -/
theorem hget_hdel_ne (st : HeaderStore) (n m : String) (h : hkey m ≠ hkey n) :
    hget (hdel st n) m = hget st m := by
  rw [hget, hdel, filter_key_filter_ne st n m h, hget]

/-- After deleting a key, no case-insensitive match of it is present. -/
theorem hmem_hdel_same (st : HeaderStore) (n m : String) (h : hkey m = hkey n) :
    hmem (hdel st n) m = false := by
  rw [hmem, List.any_eq_false]
  intro p hp
  have h3 := of_decide_eq_true (List.mem_filter.mp hp).2
  simp only [decide_eq_true_eq]
  intro heq
  exact h3 (heq.trans h)

/-- Layering a store that ends in one extra entry equals layering the rest and
then setting that entry. -/
theorem hmerge_concat (st l : HeaderStore) (n v : String) :
    hmerge st (l ++ [(n, v)]) = hset (hmerge st l) n v := by
  simp [hmerge, List.foldl_append]

/-- The Accept-Encoding adjustment steps of `build_headers` do not touch the
Cookie header. -/
theorem build_headers_cookie (std ses : HeaderStore) (req : Request) :
    hget (build_headers std ses req) "Cookie"
      = hget (hmerge (hmerge (hmerge std ses) req.headers) req.unredirected_headers)
          "Cookie" := by
  simp only [build_headers]
  by_cases hcomp : req.compression = true
  · rw [if_pos hcomp]
    by_cases hae : hmem (hmerge (hmerge (hmerge std ses) req.headers)
        req.unredirected_headers) "Accept-Encoding" = true
    · rw [if_pos hae]
    · rw [if_neg hae]
      exact hget_hset_ne _ _ _ _ (by decide)
  · rw [if_neg hcomp]
    by_cases hae : hmem (hmerge (hmerge (hmerge std ses) req.headers)
        req.unredirected_headers) "Accept-Encoding" = true
    · rw [if_pos hae]
      exact hget_hdel_ne _ _ _ (by decide)
    · rw [if_neg hae]
      rw [hget_hdel_ne _ _ _ (by decide)]
      exact hget_hset_ne _ _ _ _ (by decide)

/-- The header set a request is dispatched with once a Cookie entry has been
set as the last unredirected header resolves the Cookie header to that
entry. -/
theorem hget_build_headers_set_cookie (std ses hs uh : HeaderStore) (v : String)
    (m u hh : String) (cmp : Bool) (px : Option String) :
    hget (build_headers std ses ⟨m, u, hh, hs, hset uh "Cookie" v, cmp, px⟩) "Cookie"
      = some v := by
  rw [build_headers_cookie]
  show hget (hmerge (hmerge (hmerge std ses) hs) (hset uh "Cookie" v)) "Cookie" = some v
  rw [hset, hmerge_concat]
  exact hget_hset_self _ _ _

/-- The dispatched header set of `real_handle` is the one built from the
cookie-injected request, whatever the backend outcome. -/
theorem real_handle_sentHeaders (jar : List Cookie) (std ses : HeaderStore)
    (req : Request) (backend : HeaderStore → DispatchOutcome) :
    (real_handle jar std ses req backend).sentHeaders
      = build_headers std ses (add_cookie_header jar req) := by
  simp only [real_handle]
  cases hb : backend (build_headers std ses (add_cookie_header jar req)) with
  | err e => rfl
  | ok r =>
      dsimp only
      by_cases hst : 200 ≤ r.status ∧ r.status < 300
      · rw [if_pos hst]
      · rw [if_neg hst]

/-- C5 counterexample: at status 500 a Response is obtained and carries a
cookie-setting header, yet the shared cookie store after the call is
unchanged — the HTTP-status error is raised at line 229 before the
`extract_cookies` call at line 232 — refuting the claim that extraction also
happens on an HTTP-status error. -/
theorem c5_no_extraction_on_http_error_counterexample :
    (real_handle [⟨"a.com", "k", "v"⟩] [] []
        ⟨"GET", "https://a.com/x", "a.com", [], [], true, none⟩
        (fun _ => DispatchOutcome.ok ⟨500, 3, some 1, false, [⟨"a.com", "s", "w"⟩]⟩)).jar
      = [⟨"a.com", "k", "v"⟩] ∧
    (real_handle [⟨"a.com", "k", "v"⟩] [] []
        ⟨"GET", "https://a.com/x", "a.com", [], [], true, none⟩
        (fun _ => DispatchOutcome.ok ⟨500, 3, some 1, false, [⟨"a.com", "s", "w"⟩]⟩)).result
      = Except.error (Err.httpStatus 500 false) ∧
    (⟨500, 3, some 1, false, [⟨"a.com", "s", "w"⟩]⟩ : U3Res).setCookies ≠ [] ∧
    extract_cookies [⟨"a.com", "k", "v"⟩] ⟨500, 3, some 1, false, [⟨"a.com", "s", "w"⟩]⟩
      ≠ [⟨"a.com", "k", "v"⟩] :=
  ⟨by decide, rfl, by decide, by decide⟩

/-- C5 amended: applicable cookies are injected into the outgoing headers
before dispatch (whenever some cookie applies and the caller set no Cookie
header, the dispatched header set carries the Cookie header built from the
store, for every backend outcome), and cookie-setting response headers are
extracted into a non-empty shared store exactly when the call succeeds with a
2xx response — the store is unchanged on an HTTP-status (non-2xx) error and
on a hard transport error. -/
theorem c5_cookie_injection_and_extraction (jar : List Cookie)
    (std ses : HeaderStore) (req : Request) (r : U3Res) (raw : RawDispatch) :
    (cookies_for jar req.host ≠ [] → hmem req.headers "Cookie" = false →
      hmem req.unredirected_headers "Cookie" = false →
      ∀ backend : HeaderStore → DispatchOutcome,
        hget (real_handle jar std ses req backend).sentHeaders "Cookie"
          = some (cookie_header_value (cookies_for jar req.host))) ∧
    (200 ≤ r.status ∧ r.status < 300 → jar ≠ [] →
      (real_handle jar std ses req (fun _ => DispatchOutcome.ok r)).jar
        = jar ++ r.setCookies) ∧
    (¬ (200 ≤ r.status ∧ r.status < 300) →
      (real_handle jar std ses req (fun _ => DispatchOutcome.ok r)).jar = jar) ∧
    (real_handle jar std ses req (fun _ => DispatchOutcome.err raw)).jar = jar := by
  refine ⟨?_, ?_, ?_, rfl⟩
  · intro hcs h1 h2 backend
    have hcond : (hmem req.headers "Cookie" || hmem req.unredirected_headers "Cookie"
        || (cookies_for jar req.host).isEmpty) = false := by
      rw [h1, h2]
      simp [List.isEmpty_iff, hcs]
    have hreq1 : add_cookie_header jar req
        = { req with unredirected_headers := (hset req.unredirected_headers "Cookie" (cookie_header_value (cookies_for jar req.host))) } := by
      simp only [add_cookie_header]
      rw [hcond]
      simp
    rw [real_handle_sentHeaders, hreq1]
    exact hget_build_headers_set_cookie std ses req.headers req.unredirected_headers
      (cookie_header_value (cookies_for jar req.host)) req.method req.url req.host
      req.compression req.proxy
  · intro hst hjar
    have hne : jar.isEmpty = false :=
      Bool.eq_false_iff.mpr (fun hemp => hjar (List.isEmpty_iff.mp hemp))
    simp [real_handle, hst, hne, extract_cookies]
  · intro hst
    simp [real_handle, hst]

/-- Witness for the amended C5 at a concrete store, request and responses: the
Cookie header is dispatched, extraction happens at 204, and the store is
unchanged at 500 and on a read-timeout transport failure. -/
theorem c5_cookie_injection_and_extraction_witness :
    hget (real_handle [⟨"a.com", "k", "v"⟩] [] []
        ⟨"GET", "https://a.com/x", "a.com", [], [], true, none⟩
        (fun _ => DispatchOutcome.ok ⟨204, 3, some 1, false, [⟨"a.com", "s", "w"⟩]⟩)).sentHeaders
        "Cookie"
      = some (cookie_header_value (cookies_for [⟨"a.com", "k", "v"⟩] "a.com")) ∧
    (real_handle [⟨"a.com", "k", "v"⟩] [] []
        ⟨"GET", "https://a.com/x", "a.com", [], [], true, none⟩
        (fun _ => DispatchOutcome.ok ⟨204, 3, some 1, false, [⟨"a.com", "s", "w"⟩]⟩)).jar
      = [⟨"a.com", "k", "v"⟩] ++ [⟨"a.com", "s", "w"⟩] ∧
    (real_handle [⟨"a.com", "k", "v"⟩] [] []
        ⟨"GET", "https://a.com/x", "a.com", [], [], true, none⟩
        (fun _ => DispatchOutcome.ok ⟨500, 3, some 1, false, [⟨"a.com", "s", "w"⟩]⟩)).jar
      = [⟨"a.com", "k", "v"⟩] ∧
    (real_handle [⟨"a.com", "k", "v"⟩] [] []
        ⟨"GET", "https://a.com/x", "a.com", [], [], true, none⟩
        (fun _ => DispatchOutcome.err (RawDispatch.direct RawReason.readTimeoutError))).jar
      = [⟨"a.com", "k", "v"⟩] :=
  ⟨(c5_cookie_injection_and_extraction [⟨"a.com", "k", "v"⟩] [] []
      ⟨"GET", "https://a.com/x", "a.com", [], [], true, none⟩
      ⟨204, 3, some 1, false, [⟨"a.com", "s", "w"⟩]⟩
      (RawDispatch.direct RawReason.readTimeoutError)).1 (by decide) rfl rfl _,
   (c5_cookie_injection_and_extraction [⟨"a.com", "k", "v"⟩] [] []
      ⟨"GET", "https://a.com/x", "a.com", [], [], true, none⟩
      ⟨204, 3, some 1, false, [⟨"a.com", "s", "w"⟩]⟩
      (RawDispatch.direct RawReason.readTimeoutError)).2.1 (by decide) (by decide),
   (c5_cookie_injection_and_extraction [⟨"a.com", "k", "v"⟩] [] []
      ⟨"GET", "https://a.com/x", "a.com", [], [], true, none⟩
      ⟨500, 3, some 1, false, [⟨"a.com", "s", "w"⟩]⟩
      (RawDispatch.direct RawReason.readTimeoutError)).2.2.1 (by decide),
   (c5_cookie_injection_and_extraction [⟨"a.com", "k", "v"⟩] [] []
      ⟨"GET", "https://a.com/x", "a.com", [], [], true, none⟩
      ⟨500, 3, some 1, false, [⟨"a.com", "s", "w"⟩]⟩
      (RawDispatch.direct RawReason.readTimeoutError)).2.2.2⟩

/-- C9: when the compression flag of the request is false, the dispatched
header set contains no Accept-Encoding header at all — whatever the process
defaults, the session headers, the request headers or the unredirected
headers set (an explicitly caller-set Accept-Encoding included): lines 181-185
first ensure the header is present, then delete it case-insensitively. -/
theorem c9_compression_disabled_no_accept_encoding (std ses hs uh : HeaderStore)
    (m u hh : String) (px : Option String) :
    hmem (build_headers std ses ⟨m, u, hh, hs, uh, false, px⟩) "Accept-Encoding"
      = false := by
  show hmem (hdel (if hmem (hmerge (hmerge (hmerge std ses) hs) uh) "Accept-Encoding"
        = true
      then hmerge (hmerge (hmerge std ses) hs) uh
      else hset (hmerge (hmerge (hmerge std ses) hs) uh) "Accept-Encoding"
             (String.intercalate ", " SUPPORTED_ENCODINGS)) "accept-encoding")
      "Accept-Encoding" = false
  exact hmem_hdel_same _ _ _ (by decide)

end Urllib3RH
